import Mathlib

/-!
Shallow embedding of `backend/server.py` from the Gpt-LiveSearchClone
repository: a FastAPI endpoint that resolves a question to search-result
links (SerpAPI), scrapes the linked pages with a headless browser
(Selenium), and synthesizes an answer with the Gemini API.

Python values that flow through the handler are modelled by `JValue`
with Python truthiness.  Outbound network and browser effects are
modelled by outcome parameters (`SerpOutcome`, `NavResult`,
`GeminiOutcome`) supplied by a `World`, and the handler reports how many
outbound calls of each kind it performed.
-/

/-- A JSON value, as produced by `request.json()` / `resp.json()`. -/
inductive JValue where
  | null
  | bool (b : Bool)
  | num (n : Int)
  | str (s : String)
  | arr (xs : List JValue)
  | obj (fields : List (String × JValue))

/-- Python truthiness (`if not question:` etc.). -/
def JValue.truthy : JValue → Bool
  | .null => false
  | .bool b => b
  | .num n => n != 0
  | .str s => !s.isEmpty
  | .arr xs => !xs.isEmpty
  | .obj fs => !fs.isEmpty

/-- Python `d.get(key, dflt)`: `none` models the AttributeError raised when
the receiver is not a dict. -/
def pyGet (v : JValue) (key : String) (dflt : JValue) : Option JValue :=
  match v with
  | JValue.obj fs =>
      match fs.find? (fun kv => kv.1 == key) with
      | some kv => some kv.2
      | none => some dflt
  | _ => none

/-- Whether a `JValue` is a JSON object (a Python dict). -/
def JValue.isObj : JValue → Bool
  | JValue.obj _ => true
  | _ => false

/-- Python `r.get("link")` on a search-result entry (default `None`);
only ever evaluated on dict entries. -/
def objGetLink (r : JValue) : JValue :=
  match r with
  | JValue.obj fs =>
      match fs.find? (fun kv => kv.1 == ("link")) with
      | some kv => kv.2
      | none => JValue.null
  | _ => JValue.null

/-- Outcome of the one outbound SerpAPI request performed by
`get_links_from_serpapi`: the `requests.get` call can raise, the
`raise_for_status` call raises on a non-2xx status, `resp.json()` raises
on a malformed body, and otherwise a parsed JSON body is available. -/
inductive SerpOutcome where
  | netError
  | badStatus
  | badJson
  | ok (data : JValue)

/-- Embedding of `get_links_from_serpapi` (server.py lines 45-61).  The
whole body is wrapped in `try ... except Exception: return []`, so every
raising path yields `[]`.  On a parsed body the code evaluates
`[r.get("link") for r in data.get("organic_results", [])[:max_results] if r.get("link")]`:
it truncates to `max_results` FIRST and filters for a truthy link
SECOND.  A non-dict body, a non-list `organic_results`, or a non-dict
entry inside the truncated slice makes the comprehension raise, hence
`[]`. -/
def get_links_from_serpapi (o : SerpOutcome) (max_results : Nat := 5) : List JValue :=
  match o with
  | SerpOutcome.ok data =>
      match pyGet data ("organic_results") (JValue.arr []) with
      | some (JValue.arr rs) =>
          let truncated := rs.take max_results
          if truncated.all JValue.isObj then
            (truncated.filter (fun r => (objGetLink r).truthy)).map objGetLink
          else []
      | _ => []
  | _ => []

/-- Search resolution as the specification words it: entries lacking a
resolvable link are filtered out BEFORE truncating to `max_results`.
Written from the wording of the specification only, to be compared with
`get_links_from_serpapi`. -/
def get_links_filter_first (o : SerpOutcome) (max_results : Nat := 5) : List JValue :=
  match o with
  | SerpOutcome.ok data =>
      match pyGet data ("organic_results") (JValue.arr []) with
      | some (JValue.arr rs) =>
          if rs.all JValue.isObj then
            ((rs.filter (fun r => (objGetLink r).truthy)).take max_results).map objGetLink
          else []
      | _ => []
  | _ => []

/-- The organic-results list the code iterates over, for stating order
preservation. -/
def organicOf (o : SerpOutcome) : List JValue :=
  match o with
  | SerpOutcome.ok data =>
      match pyGet data ("organic_results") (JValue.arr []) with
      | some (JValue.arr rs) => rs
      | _ => []
  | _ => []



/-- Characters dropped from the front by Python `str.strip()`. -/
def dropLeadingWS : List Char → List Char
  | [] => []
  | c :: rest => if c.isWhitespace then dropLeadingWS rest else c :: rest

/-- Python `s.strip()`: drop leading and trailing whitespace.  Defined
by structural recursion over the character list so that closed terms
evaluate. -/
def pyStrip (s : String) : String :=
  ⟨(dropLeadingWS ((dropLeadingWS s.data).reverse)).reverse⟩

/-- Python `s.lower()`. -/
def pyLower (s : String) : String :=
  ⟨s.data.map Char.toLower⟩

/-- Whether the first list is an initial segment of the second. -/
def leadsWith : List Char → List Char → Bool
  | [], _ => true
  | _ :: _, [] => false
  | p :: ps, c :: cs => p == c && leadsWith ps cs

/-- Python `s.startswith(pre)`. -/
def pyStartsWith (s pre : String) : Bool :=
  leadsWith pre.data s.data

/-- Utility `is_valid_text` (server.py lines 42-43): truthy under
`text and len(text.strip()) > 0 and not text.strip().startswith("By ")`. -/
def is_valid_text (text : String) : Bool :=
  !text.isEmpty && !(pyStrip text).isEmpty && !(pyStartsWith (pyStrip text) ("By "))

/-- An element matched by the generic XPath `//h1 | //h2 | //h3 | //p | //a`:
its `tag_name`, its raw `text`, and its `href` attribute (`none` models a
`get_attribute` result of Python `None`). -/
structure Elem where
  tag : String
  text : String
  href : Option String
deriving DecidableEq

/-- Fragment the generic strategy (lines 81-90) appends for one element. -/
def elemFragment (e : Elem) : String :=
  let tag := pyLower e.tag
  let text := pyStrip e.text
  if tag == ("a") then
    match e.href with
    | some href =>
        if !text.isEmpty && !href.isEmpty then
          ("[") ++ text ++ ("](") ++ href ++ (")\n")
        else ""
    | none => ""
  else if is_valid_text text then text ++ ("\n") else ""

/-- A listing card (class `sc-1q7bklc-10`, lines 96-102): raw text of
each optional sub-element, `none` when `find_elements` is empty. -/
structure Cafe where
  nameEl : Option String
  categoryEl : Option String
  priceEl : Option String
deriving DecidableEq

/-- Trimmed text of an optional card sub-element, `""` when absent. -/
def cafeSub (o : Option String) : String :=
  (o.map pyStrip).getD ""

/-- Record the card strategy appends for one card (lines 98-102). -/
def cafeRecord (c : Cafe) : String :=
  let name := cafeSub c.nameEl
  let category := cafeSub c.categoryEl
  let price := cafeSub c.priceEl
  if !name.isEmpty || !category.isEmpty || !price.isEmpty then
    ("\nName: ") ++ name ++ ("\nCategory: ") ++ category ++
      ("\nPrice for two: ") ++ price ++ ("\n")
  else ""

/-- The three element lists of the business-directory strategy
(lines 108-110), holding the raw texts of the matched elements. -/
structure Directory where
  names : List String
  ratings : List String
  addresses : List String
deriving DecidableEq

/-- Record appended for position `i` of the directory loop (lines 112-118):
out-of-range ratings/addresses are taken as `""`. -/
def dirRecord (d : Directory) (i : Nat) : String :=
  let name := pyStrip (d.names.getD i (""))
  let rating := pyStrip (d.ratings.getD i (""))
  let address := pyStrip (d.addresses.getD i (""))
  if !name.isEmpty || !rating.isEmpty || !address.isEmpty then
    ("\nName: ") ++ name ++ ("\nRating: ") ++ rating ++
      ("\nAddress: ") ++ address ++ ("\n")
  else ""

/-- Kind of a table cell. -/
inductive CellKind where
  | th
  | td
deriving DecidableEq, BEq

/-- A table cell with kind and raw text. -/
structure Cell where
  kind : CellKind
  text : String
deriving DecidableEq

/-- Line the table strategy appends for one row (lines 127-131): the code
evaluates `row.find_elements("th") + row.find_elements("td")`, i.e. all
header cells first, then all data cells; a tab-separated line is emitted
only when some trimmed cell is non-empty (`if any(texts)`). -/
def rowLine (row : List Cell) : String :=
  let ths := (row.filter (fun c => c.kind == CellKind.th)).map (fun c => pyStrip c.text)
  let tds := (row.filter (fun c => c.kind == CellKind.td)).map (fun c => pyStrip c.text)
  let texts := ths ++ tds
  if texts.any (fun t => !t.isEmpty) then
    (String.intercalate ("\t") texts) ++ ("\n")
  else ""

/-- Row line as the specification words it: the cells of the row in
document order (headers and data interleaved as they appear), trimmed,
emitted as one tab-separated line when not all are empty.  Written from
the wording of the specification only, to be compared with `rowLine`. -/
def rowLineDocOrder (row : List Cell) : String :=
  let texts := row.map (fun c => pyStrip c.text)
  if texts.any (fun t => !t.isEmpty) then
    (String.intercalate ("\t") texts) ++ ("\n")
  else ""

/-- Concatenation of a list of emitted fragments (the running `extracted`
string grows by successive `+=`). -/
def strConcat : List String → String
  | [] => ""
  | s :: rest => s ++ strConcat rest

/-- Text the table strategy appends for one whole table (lines 125-131). -/
def runTable (t : List (List Cell)) : String :=
  strConcat (t.map rowLine)

/-- Iterate one strategy block over its matched items.  Each item carries
`Except Unit α`: `Except.error` models an exception raised while
processing that item (a raising leading item also models `find_elements`
itself raising).  The exception aborts the block via `except: continue`,
keeping the text already appended for earlier items; the `Bool` result
records whether the block completed without raising. -/
def runItems (f : α → String) : List (Except Unit α) → String × Bool
  | [] => ("", true)
  | (Except.error _) :: _ => ("", false)
  | (Except.ok a) :: rest =>
      let r := runItems f rest
      (f a ++ r.1, r.2)

/-- The directory block (lines 107-120): exceptions are modelled at block
granularity (`Except.error` = some call inside the block raised and the
bare `except` fired before anything from the block was appended). -/
def runDirectory : Except Unit Directory → String × Bool
  | Except.error _ => ("", false)
  | Except.ok d =>
      (strConcat ((List.range d.names.length).map (dirRecord d)), true)

/-- A loaded page, as seen by the four strategy blocks applied to it. -/
structure Page where
  generic : List (Except Unit Elem)
  cafes : List (Except Unit Cafe)
  directory : Except Unit Directory
  tables : List (Except Unit (List (List Cell)))

/-- Text appended to `extracted` for one successfully navigated page
(lines 80-133).  Each strategy block is wrapped in `try ... except:
continue`; `continue` jumps to the next URL, so a block that raises
keeps its own partial output but SKIPS the remaining blocks for this
page. -/
def extractPage (p : Page) : String :=
  let g := runItems elemFragment p.generic
  if !g.2 then g.1 else
  let c := runItems cafeRecord p.cafes
  if !c.2 then g.1 ++ c.1 else
  let d := runDirectory p.directory
  if !d.2 then g.1 ++ c.1 ++ d.1 else
  let t := runItems runTable p.tables
  g.1 ++ c.1 ++ d.1 ++ t.1

/-- Outcome of navigating the browser to one URL (lines 74-78):
`driver.get` can raise a `TimeoutException` or `WebDriverException`
(both caught, URL skipped), or an exception of any other class (NOT
caught: it propagates out of `scrape_links`), or load a page. -/
inductive NavResult where
  | navTimeout
  | navWebDriver
  | navOther
  | loaded (p : Page)

/-- Whether a navigation outcome is an uncaught-exception outcome. -/
def NavResult.isOther : NavResult → Bool
  | NavResult.navOther => true
  | _ => false

/-- Result of `scrape_links`: `extracted = some text` when the function
returns normally, `none` when an exception propagates out of it;
`quitCalls` counts how many times `driver.quit()` ran. -/
structure ScrapeOutcome where
  extracted : Option String
  quitCalls : Nat
deriving DecidableEq

/-- The URL loop of `scrape_links` (lines 73-136) with the accumulated
`extracted` string: on exhaustion `driver.quit()` runs once and the text
is returned; timeout/webdriver navigation failures skip the URL; any
other navigation exception propagates immediately, so `driver.quit()`
(which is NOT in a `finally` block) never runs. -/
def scrapeGo : List NavResult → String → ScrapeOutcome
  | [], acc => ⟨some acc, 1⟩
  | NavResult.navTimeout :: rest, acc => scrapeGo rest acc
  | NavResult.navWebDriver :: rest, acc => scrapeGo rest acc
  | NavResult.navOther :: _, _ => ⟨none, 0⟩
  | NavResult.loaded p :: rest, acc => scrapeGo rest (acc ++ extractPage p)

/-- Embedding of `scrape_links` (lines 63-136): acquires the browser
session, starts from `extracted = ""`, and runs the URL loop. -/
def scrape_links (links : List NavResult) : ScrapeOutcome :=
  scrapeGo links ""

/-- Text one list entry contributes to the final blob when no exception
propagates. -/
def pageTextOf : NavResult → String
  | NavResult.loaded p => extractPage p
  | _ => ""

/-- Concatenated contributions of a list of navigation outcomes. -/
def textAll : List NavResult → String
  | [] => ""
  | l :: rest => pageTextOf l ++ textAll rest



/-- Outcome of the one outbound Gemini request in `query_gemini`
(lines 153-160): `raised e` models `requests.post` itself raising with
message `e`; `resp status parsed` models a response with the given
status code, where `parsed` is the text at
`json()["candidates"][0]["content"]["parts"][0]["text"]` on success and
`Except.error e` when extracting it raises with message `e` (that
exception is caught by the same outer `except`). -/
inductive GeminiOutcome where
  | raised (e : String)
  | resp (status : Nat) (parsed : Except String String)

/-- Embedding of `query_gemini` (lines 138-160).  The function is total:
every failure is converted to an error-marked string.  The body is only
parsed when the status is 200; a parse failure falls into the outer
`except` branch. -/
def query_gemini (o : GeminiOutcome) : String :=
  match o with
  | GeminiOutcome.raised e => ("❌ Gemini request failed: ") ++ e
  | GeminiOutcome.resp status parsed =>
      if status = 200 then
        match parsed with
        | Except.ok t => pyStrip t
        | Except.error e => ("❌ Gemini request failed: ") ++ e
      else ("❌ Gemini Error: ") ++ toString status

/-- The 400 body for a missing question (line 197). -/
def missingQuestionMsg : String := "⚠️ Missing \x27question\x27 in request."

/-- The answer for an empty link list (line 201). -/
def noSearchResultsMsg : String := "❌ No search results found."

/-- The answer for a blank scrape (line 205). -/
def noContentMsg : String := "❌ No content extracted from search results."

/-- The external world one request runs against: the SerpAPI outcome,
the navigation outcome the browser produces for each link value, and
the Gemini outcome. -/
structure World where
  serp : SerpOutcome
  navOf : JValue → NavResult
  gemini : GeminiOutcome

/-- An HTTP response of the endpoint: status code and answer body. -/
structure Response where
  status : Nat
  answer : String
deriving DecidableEq

/-- Result of one `handle_query` request: the response (`none` when an
exception propagates out of the handler), and how many outbound
search-API calls, browser sessions, and language-model calls were
performed. -/
structure HandlerResult where
  response : Option Response
  searchCalls : Nat
  scrapeCalls : Nat
  geminiCalls : Nat
deriving DecidableEq

/-- Embedding of `handle_query` (lines 192-208): read
`data.get("question", "")`, reject a falsy question with a 400 response,
otherwise resolve links (one search call), short-circuit on an empty
link list, scrape (one browser session), short-circuit on a blank blob,
and otherwise synthesize (one Gemini call). -/
def handle_query (body : JValue) (w : World) : HandlerResult :=
  match pyGet body ("question") (JValue.str "") with
  | none => ⟨none, 0, 0, 0⟩
  | some question =>
      if !question.truthy then
        ⟨some ⟨400, missingQuestionMsg⟩, 0, 0, 0⟩
      else
        let links := get_links_from_serpapi w.serp
        if links.isEmpty then
          ⟨some ⟨200, noSearchResultsMsg⟩, 1, 0, 0⟩
        else
          let s := scrape_links (links.map w.navOf)
          match s.extracted with
          | none => ⟨none, 1, 1, 0⟩
          | some text =>
              if (pyStrip text).isEmpty then
                ⟨some ⟨200, noContentMsg⟩, 1, 1, 0⟩
              else
                ⟨some ⟨200, query_gemini w.gemini⟩, 1, 1, 1⟩

/-- Whether the search stage failed (network error, non-2xx status,
malformed body: a non-dict body or a non-list `organic_results` field)
or produced an empty organic-result set. -/
def serpFailedOrEmpty (o : SerpOutcome) : Bool :=
  match o with
  | SerpOutcome.netError => true
  | SerpOutcome.badStatus => true
  | SerpOutcome.badJson => true
  | SerpOutcome.ok data =>
      match pyGet data ("organic_results") (JValue.arr []) with
      | some (JValue.arr rs) => rs.isEmpty
      | _ => true

/-- A world that fails at the search stage, for concrete runs. -/
def wFailSearch : World :=
  ⟨SerpOutcome.netError, fun _ => NavResult.navTimeout,
    GeminiOutcome.raised ""⟩



/-- A request body whose question is a single space (non-empty but blank
after trimming). -/
def qWhitespaceBody : JValue :=
  JValue.obj [(("question"), JValue.str (" "))]

/-- A search-API body with six organic results, the first of which lacks
a `link` field. -/
def serpSixResults : SerpOutcome :=
  SerpOutcome.ok (JValue.obj [(("organic_results"), JValue.arr
    [JValue.obj [],
     JValue.obj [(("link"), JValue.str ("a"))],
     JValue.obj [(("link"), JValue.str ("b"))],
     JValue.obj [(("link"), JValue.str ("c"))],
     JValue.obj [(("link"), JValue.str ("d"))],
     JValue.obj [(("link"), JValue.str ("e"))]])])

/-- A search-API body with exactly one organic result carrying a link. -/
def serpOneLink : SerpOutcome :=
  SerpOutcome.ok (JValue.obj [(("organic_results"),
    JValue.arr [JValue.obj [(("link"), JValue.str ("u"))]])])

/-- A world whose search succeeds with one link but whose page load
times out, so the scrape produces a blank blob. -/
def wBlankScrape : World :=
  ⟨serpOneLink, fun _ => NavResult.navTimeout, GeminiOutcome.raised ""⟩

/-- A page on which only the table strategy has content: one table with
a single row holding a single data cell `X`. -/
def pTableOnly : Page :=
  ⟨[], [], Except.ok ⟨[], [], []⟩,
    [Except.ok [[⟨CellKind.td, "X"⟩]]]⟩

/-- The same page, except that the generic text strategy raises. -/
def pGenericFailsTable : Page :=
  ⟨[Except.error ()], [], Except.ok ⟨[], [], []⟩,
    [Except.ok [[⟨CellKind.td, "X"⟩]]]⟩

/-- A table row whose document order is a data cell followed by a header
cell. -/
def rowMixed : List Cell :=
  [⟨CellKind.td, "X"⟩, ⟨CellKind.th, "Y"⟩]

/-- Helper: the contribution function distributes over list append. -/
theorem textAll_append (a b : List NavResult) :
    textAll (a ++ b) = textAll a ++ textAll b := by
  induction a with
  | nil => simp [textAll, String.empty_append]
  | cons l rest ih =>
      simp [textAll, ih, String.append_assoc]

/-- Helper: when no navigation raises an uncaught exception, the URL
loop returns normally with the accumulated text and quits the driver
exactly once. -/
theorem scrapeGo_no_other (ls : List NavResult) (acc : String)
    (h : ls.all (fun l => !l.isOther) = true) :
    scrapeGo ls acc = ⟨some (acc ++ textAll ls), 1⟩ := by
  induction ls generalizing acc with
  | nil => simp [scrapeGo, textAll, String.append_empty]
  | cons l rest ih =>
      rw [List.all_cons, Bool.and_eq_true] at h
      cases l with
      | navTimeout =>
          rw [scrapeGo, ih acc h.2]
          simp [textAll, pageTextOf, String.empty_append]
      | navWebDriver =>
          rw [scrapeGo, ih acc h.2]
          simp [textAll, pageTextOf, String.empty_append]
      | navOther => simp [NavResult.isOther] at h
      | loaded p =>
          rw [scrapeGo, ih _ h.2]
          simp [textAll, pageTextOf, String.append_assoc]

/-- Helper: when some navigation raises an uncaught exception, the loop
propagates it: no text is returned and the driver is never quit. -/
theorem scrapeGo_other (ls : List NavResult) (acc : String)
    (h : ls.all (fun l => !l.isOther) = false) :
    scrapeGo ls acc = ⟨none, 0⟩ := by
  induction ls generalizing acc with
  | nil => simp at h
  | cons l rest ih =>
      rw [List.all_cons] at h
      cases l with
      | navTimeout => rw [scrapeGo]; exact ih acc (by simpa [NavResult.isOther] using h)
      | navWebDriver => rw [scrapeGo]; exact ih acc (by simpa [NavResult.isOther] using h)
      | navOther => rfl
      | loaded p => rw [scrapeGo]; exact ih _ (by simpa [NavResult.isOther] using h)

/-- Claim C4, counterexample.  The claim asserts the browser session is
released exactly once on EVERY exit path, including an exception raised
partway through extraction.  `driver.quit()` is not in a `finally`
block, and the navigation `try` only catches `TimeoutException` and
`WebDriverException`: a navigation failure of any other exception class
propagates out of `scrape_links` with zero `driver.quit()` calls. -/
theorem scrape_exception_skips_release :
    (scrape_links [NavResult.navOther]).quitCalls = 0 ∧
    (scrape_links [NavResult.navOther]).extracted = none :=
  ⟨rfl, rfl⟩

/-- Claim C4, amended.  When no navigation raises an exception outside
`TimeoutException`/`WebDriverException`, `scrape_links` returns normally
and releases the browser session exactly once; when some navigation
raises any other exception, the exception propagates and the session is
never released. -/
theorem scrape_release_amended (ls : List NavResult) :
    (ls.all (fun l => !l.isOther) = true →
      (scrape_links ls).quitCalls = 1 ∧
      (scrape_links ls).extracted = some (textAll ls)) ∧
    (ls.all (fun l => !l.isOther) = false →
      (scrape_links ls).quitCalls = 0 ∧
      (scrape_links ls).extracted = none) := by
  constructor
  · intro h
    rw [scrape_links, scrapeGo_no_other ls ("") h]
    exact ⟨rfl, congrArg some (String.empty_append _)⟩
  · intro h
    rw [scrape_links, scrapeGo_other ls ("") h]
    exact ⟨rfl, rfl⟩

/-- Claim C4 witness: the amended theorem applied at a concrete
list with one skipped URL and one loaded page. -/
theorem scrape_release_amended_witness :
    (([NavResult.navTimeout, NavResult.loaded pTableOnly].all
        (fun l => !l.isOther) = true →
      (scrape_links [NavResult.navTimeout, NavResult.loaded pTableOnly]).quitCalls = 1 ∧
      (scrape_links [NavResult.navTimeout, NavResult.loaded pTableOnly]).extracted =
        some (textAll [NavResult.navTimeout, NavResult.loaded pTableOnly])) ∧
    ([NavResult.navTimeout, NavResult.loaded pTableOnly].all
        (fun l => !l.isOther) = false →
      (scrape_links [NavResult.navTimeout, NavResult.loaded pTableOnly]).quitCalls = 0 ∧
      (scrape_links [NavResult.navTimeout, NavResult.loaded pTableOnly]).extracted = none)) ∧
    (scrape_links [NavResult.navTimeout, NavResult.loaded pTableOnly]).quitCalls = 1 :=
  ⟨scrape_release_amended [NavResult.navTimeout, NavResult.loaded pTableOnly],
    ((scrape_release_amended [NavResult.navTimeout, NavResult.loaded pTableOnly]).1 rfl).1⟩

/-- Claim C2, counterexample.  The claim asserts a failure in one
extraction strategy does not prevent the remaining strategies from
being applied to the same page.  Each strategy block ends in
`except: continue`, and `continue` jumps to the NEXT URL: on a page
whose generic strategy raises, the table strategy is never applied,
even though on the same page without the failing strategy it would have
emitted a line. -/
theorem strategy_failure_skips_later_strategies :
    extractPage pGenericFailsTable = "" ∧
    extractPage pTableOnly = ("X\n") :=
  ⟨rfl, rfl⟩

/-- Claim C2, amended.  A failure inside one strategy is isolated from
OTHER URLS and from already-accumulated text: the blob is the
concatenation of per-page contributions, so whatever happens on one
page (including strategy failures) leaves the text of the other pages and the
running accumulation intact; and within the failing page the text
emitted before the failure is kept.  However, a strategy that raises
skips the remaining strategies for its own page (shown here for the
first, generic strategy: the page then contributes exactly the partial
output of that strategy). -/
theorem strategy_failure_isolation_amended (pre post : List NavResult) (p : Page)
    (hpre : pre.all (fun l => !l.isOther) = true)
    (hpost : post.all (fun l => !l.isOther) = true) :
    (scrape_links (pre ++ NavResult.loaded p :: post)).extracted =
      some (textAll pre ++ (extractPage p ++ textAll post)) ∧
    (scrape_links (pre ++ NavResult.loaded p :: post)).quitCalls = 1 ∧
    ((runItems elemFragment p.generic).2 = false →
      extractPage p = (runItems elemFragment p.generic).1) := by
  have hall : (pre ++ NavResult.loaded p :: post).all (fun l => !l.isOther) = true := by
    rw [List.all_append, List.all_cons, hpre, hpost]
    rfl
  rw [scrape_links, scrapeGo_no_other _ _ hall]
  refine ⟨?_, rfl, ?_⟩
  · rw [textAll_append, String.empty_append]
    show some (textAll pre ++ (pageTextOf (NavResult.loaded p) ++ textAll post)) = _
    rfl
  · intro h
    simp [extractPage, h]

/-- Claim C2 witness: the amended theorem applied with a skipped URL
before and a table-only page after a page whose generic strategy
raises. -/
theorem strategy_failure_isolation_amended_witness :
    (scrape_links ([NavResult.navTimeout] ++
        NavResult.loaded pGenericFailsTable :: [NavResult.loaded pTableOnly])).extracted =
      some (textAll [NavResult.navTimeout] ++
        (extractPage pGenericFailsTable ++ textAll [NavResult.loaded pTableOnly])) ∧
    (scrape_links ([NavResult.navTimeout] ++
        NavResult.loaded pGenericFailsTable :: [NavResult.loaded pTableOnly])).quitCalls = 1 ∧
    ((runItems elemFragment pGenericFailsTable.generic).2 = false →
      extractPage pGenericFailsTable = (runItems elemFragment pGenericFailsTable.generic).1) :=
  strategy_failure_isolation_amended [NavResult.navTimeout] [NavResult.loaded pTableOnly]
    pGenericFailsTable rfl rfl

/-- Claim C1, counterexample.  The claim asserts every whitespace-only
question is rejected with a client error and zero outbound calls.  The
handler only tests Python truthiness (`if not question:`), and a
non-empty whitespace string is truthy: for the question `" "` the
pipeline starts, one search-API call is performed, and the response is
a 200, not a client error. -/
theorem whitespace_question_starts_pipeline :
    (handle_query qWhitespaceBody wFailSearch).searchCalls = 1 ∧
    (handle_query qWhitespaceBody wFailSearch).response =
      some ⟨200, noSearchResultsMsg⟩ :=
  ⟨rfl, rfl⟩

/-- Claim C1, amended.  Exactly the falsy questions (in particular the
empty string, and a missing key, which defaults to the empty string)
are rejected: the handler returns the fixed 400 response and performs
zero outbound calls, for any world.  A whitespace-only non-empty
question is truthy and is NOT rejected. -/
theorem falsy_question_rejected_no_calls (body : JValue) (w : World) (q : JValue)
    (hq : pyGet body ("question") (JValue.str "") = some q)
    (ht : q.truthy = false) :
    handle_query body w = ⟨some ⟨400, missingQuestionMsg⟩, 0, 0, 0⟩ := by
  simp [handle_query, hq, ht]

/-- Claim C1 witness: the amended theorem applied to a body whose
question is the empty string. -/
theorem falsy_question_rejected_no_calls_witness :
    handle_query (JValue.obj [(("question"), JValue.str (""))]) wFailSearch =
      ⟨some ⟨400, missingQuestionMsg⟩, 0, 0, 0⟩ :=
  falsy_question_rejected_no_calls (JValue.obj [(("question"), JValue.str (""))])
    wFailSearch (JValue.str ("")) rfl rfl

/-- Claim C10, confirmed.  A body whose `question` field is bound to any
falsy JSON value (empty string, null, false, 0, empty array) gets the
same fixed 400 response with zero outbound calls, and a body lacking
the key entirely gets that very same result, so absence and an explicit
empty string are indistinguishable to the caller. -/
theorem falsy_or_missing_question_same_400 (w : World) (v : JValue)
    (hv : v ∈ [JValue.str (""), JValue.null, JValue.bool false,
      JValue.num 0, JValue.arr []]) :
    handle_query (JValue.obj [(("question"), v)]) w =
      ⟨some ⟨400, missingQuestionMsg⟩, 0, 0, 0⟩ ∧
    handle_query (JValue.obj []) w =
      ⟨some ⟨400, missingQuestionMsg⟩, 0, 0, 0⟩ := by
  refine ⟨?_, rfl⟩
  simp only [List.mem_cons, List.not_mem_nil, or_false] at hv
  rcases hv with h | h | h | h | h
  all_goals subst h
  all_goals rfl

/-- Claim C10 witness: the theorem applied at `null`. -/
theorem falsy_or_missing_question_same_400_witness :
    handle_query (JValue.obj [(("question"), JValue.null)]) wFailSearch =
      ⟨some ⟨400, missingQuestionMsg⟩, 0, 0, 0⟩ ∧
    handle_query (JValue.obj []) wFailSearch =
      ⟨some ⟨400, missingQuestionMsg⟩, 0, 0, 0⟩ :=
  falsy_or_missing_question_same_400 wFailSearch JValue.null
    (List.Mem.tail _ (List.Mem.head _))

/-- Helper: whenever the search stage fails or the organic-result set is
empty, the resolver returns the empty list. -/
theorem get_links_empty_of_failure (o : SerpOutcome)
    (hs : serpFailedOrEmpty o = true) :
    get_links_from_serpapi o = [] := by
  unfold serpFailedOrEmpty at hs
  cases o with
  | netError => rfl
  | badStatus => rfl
  | badJson => rfl
  | ok data =>
      unfold get_links_from_serpapi
      rcases hpg : pyGet data ("organic_results") (JValue.arr []) with _ | v
      · simp [hpg]
      · cases v with
        | arr rs =>
            simp only [hpg] at hs
            have hrs : rs = [] := by
              simpa using hs
            subst hrs
            simp [hpg]
        | null => simp [hpg]
        | bool b => simp [hpg]
        | num n => simp [hpg]
        | str s => simp [hpg]
        | obj fs => simp [hpg]

/-- Claim C5, confirmed.  For a truthy question, any search-API failure
(network error, non-2xx status, malformed body) and any empty
organic-result set alike make the resolver return the empty sequence
(it never raises: it is a total function), and the handler then answers
with the fixed no-search-results message after exactly one search call,
zero browser sessions, and zero language-model calls. -/
theorem search_failure_yields_no_results_message (body : JValue) (w : World) (q : JValue)
    (hq : pyGet body ("question") (JValue.str "") = some q)
    (ht : q.truthy = true)
    (hs : serpFailedOrEmpty w.serp = true) :
    get_links_from_serpapi w.serp = [] ∧
    handle_query body w = ⟨some ⟨200, noSearchResultsMsg⟩, 1, 0, 0⟩ := by
  have hlinks := get_links_empty_of_failure w.serp hs
  exact ⟨hlinks, by simp [handle_query, hq, ht, hlinks]⟩

/-- Claim C5 witness: the theorem applied to a question `"hi"` and a
network-failing search API. -/
theorem search_failure_yields_no_results_message_witness :
    get_links_from_serpapi wFailSearch.serp = [] ∧
    handle_query (JValue.obj [(("question"), JValue.str ("hi"))]) wFailSearch =
      ⟨some ⟨200, noSearchResultsMsg⟩, 1, 0, 0⟩ :=
  search_failure_yields_no_results_message
    (JValue.obj [(("question"), JValue.str ("hi"))]) wFailSearch
    (JValue.str ("hi")) rfl rfl rfl

/-- Claim C6, confirmed.  For a truthy question and a non-empty link
list, whenever the scrape returns normally with a blob that is blank
(empty or whitespace-only after stripping), the handler answers with
the fixed no-content-extracted message and the synthesizer is never
invoked (zero language-model calls). -/
theorem blank_extraction_yields_no_content_message (body : JValue) (w : World)
    (q : JValue) (t : String)
    (hq : pyGet body ("question") (JValue.str "") = some q)
    (ht : q.truthy = true)
    (hl : (get_links_from_serpapi w.serp).isEmpty = false)
    (hs : (scrape_links ((get_links_from_serpapi w.serp).map w.navOf)).extracted = some t)
    (hb : (pyStrip t).isEmpty = true) :
    handle_query body w = ⟨some ⟨200, noContentMsg⟩, 1, 1, 0⟩ := by
  simp [handle_query, hq, ht, hl, hs, hb]

/-- Claim C6 witness: the theorem applied to a world whose search yields
one link and whose page load times out, so the blob is empty. -/
theorem blank_extraction_yields_no_content_message_witness :
    handle_query (JValue.obj [(("question"), JValue.str ("hi"))]) wBlankScrape =
      ⟨some ⟨200, noContentMsg⟩, 1, 1, 0⟩ :=
  blank_extraction_yields_no_content_message
    (JValue.obj [(("question"), JValue.str ("hi"))]) wBlankScrape
    (JValue.str ("hi")) ("") rfl rfl rfl rfl rfl

/-- Claim C3, counterexample.  The claim asserts the resolver filters
out entries lacking a link BEFORE truncating to `max_results`.  The
code truncates first (`[:max_results]`) and filters second: on a body
with six organic results whose first entry lacks a link, the code
returns only 4 links although 5 link-bearing entries exist, while the
filter-before-truncate reading returns 5. -/
theorem resolver_truncates_before_filtering :
    get_links_from_serpapi serpSixResults =
      [JValue.str ("a"), JValue.str ("b"), JValue.str ("c"), JValue.str ("d")] ∧
    get_links_filter_first serpSixResults =
      [JValue.str ("a"), JValue.str ("b"), JValue.str ("c"), JValue.str ("d"),
        JValue.str ("e")] ∧
    get_links_from_serpapi serpSixResults ≠ get_links_filter_first serpSixResults := by
  refine ⟨rfl, rfl, fun h => ?_⟩
  have hlen := congrArg List.length h
  exact absurd hlen (by decide)

/-- Claim C3, amended.  The resolver truncates the organic results to
`max_results` FIRST and then filters out entries lacking a truthy link
field; the returned sequence always has length at most `max_results`
and preserves the ranking order of the API (it is an order-preserving
subsequence of the link values of the organic results); and whenever the
truncated entries are all objects, the result is exactly the truncated
list filtered and mapped to its links. -/
theorem resolver_bound_order_amended (o : SerpOutcome) (m : Nat) :
    (get_links_from_serpapi o m).length ≤ m ∧
    List.Sublist (get_links_from_serpapi o m) ((organicOf o).map objGetLink) ∧
    (((organicOf o).take m).all JValue.isObj = true →
      get_links_from_serpapi o m =
        (((organicOf o).take m).filter (fun r => (objGetLink r).truthy)).map objGetLink) := by
  cases o with
  | netError => refine ⟨?_, ?_, fun _ => ?_⟩ <;> simp [get_links_from_serpapi, organicOf]
  | badStatus => refine ⟨?_, ?_, fun _ => ?_⟩ <;> simp [get_links_from_serpapi, organicOf]
  | badJson => refine ⟨?_, ?_, fun _ => ?_⟩ <;> simp [get_links_from_serpapi, organicOf]
  | ok data =>
      rcases hpg : pyGet data ("organic_results") (JValue.arr []) with _ | v
      · refine ⟨?_, ?_, fun _ => ?_⟩ <;> simp [get_links_from_serpapi, organicOf, hpg]
      · cases v with
        | arr rs =>
            have ho2 : organicOf (SerpOutcome.ok data) = rs := by
              simp [organicOf, hpg]
            by_cases hobj : (rs.take m).all JValue.isObj = true
            · have hg : get_links_from_serpapi (SerpOutcome.ok data) m =
                  ((rs.take m).filter (fun r => (objGetLink r).truthy)).map objGetLink := by
                simp [get_links_from_serpapi, hpg, hobj]
              rw [hg, ho2]
              refine ⟨?_, ?_, fun _ => rfl⟩
              · rw [List.length_map]
                exact Nat.le_trans (List.length_filter_le _ _) (List.length_take_le m rs)
              · exact List.Sublist.map objGetLink
                  (List.Sublist.trans (List.filter_sublist _) (List.take_sublist m rs))
            · have hg : get_links_from_serpapi (SerpOutcome.ok data) m = [] := by
                simp [get_links_from_serpapi, hpg, hobj]
              rw [hg, ho2]
              exact ⟨Nat.zero_le m, List.nil_sublist _, fun hc => absurd hc hobj⟩
        | null => refine ⟨?_, ?_, fun _ => ?_⟩ <;> simp [get_links_from_serpapi, organicOf, hpg]
        | bool b => refine ⟨?_, ?_, fun _ => ?_⟩ <;> simp [get_links_from_serpapi, organicOf, hpg]
        | num n => refine ⟨?_, ?_, fun _ => ?_⟩ <;> simp [get_links_from_serpapi, organicOf, hpg]
        | str s => refine ⟨?_, ?_, fun _ => ?_⟩ <;> simp [get_links_from_serpapi, organicOf, hpg]
        | obj fs => refine ⟨?_, ?_, fun _ => ?_⟩ <;> simp [get_links_from_serpapi, organicOf, hpg]

/-- Claim C3 witness: the amended equation instantiated on the
six-result body, with the all-objects hypothesis discharged there. -/
theorem resolver_bound_order_amended_witness :
    get_links_from_serpapi serpSixResults 5 =
      (((organicOf serpSixResults).take 5).filter
        (fun r => (objGetLink r).truthy)).map objGetLink :=
  (resolver_bound_order_amended serpSixResults 5).2.2 rfl

/-- Helper: a header cell is not a data cell. -/
theorem kind_th_not_td (c : Cell) (h : (c.kind == CellKind.th) = true) :
    (c.kind == CellKind.td) = false := by
  cases hk : c.kind with
  | th => rfl
  | td => rw [hk] at h; exact absurd h (by decide)

/-- Helper: a data cell is not a header cell. -/
theorem kind_td_not_th (c : Cell) (h : (c.kind == CellKind.td) = true) :
    (c.kind == CellKind.th) = false := by
  cases hk : c.kind with
  | th => rw [hk] at h; exact absurd h (by decide)
  | td => rfl

/-- Helper: on an all-header row the two kind filters collapse. -/
theorem filter_all_th (l : List Cell)
    (h : l.all (fun c => c.kind == CellKind.th) = true) :
    l.filter (fun c => c.kind == CellKind.th) = l ∧
    l.filter (fun c => c.kind == CellKind.td) = [] := by
  constructor
  · exact List.filter_eq_self.mpr (List.all_eq_true.mp h)
  · refine List.filter_eq_nil_iff.mpr (fun c hc => ?_)
    simp [kind_th_not_td c (List.all_eq_true.mp h c hc)]

/-- Helper: on an all-data row the two kind filters collapse. -/
theorem filter_all_td (l : List Cell)
    (h : l.all (fun c => c.kind == CellKind.td) = true) :
    l.filter (fun c => c.kind == CellKind.td) = l ∧
    l.filter (fun c => c.kind == CellKind.th) = [] := by
  constructor
  · exact List.filter_eq_self.mpr (List.all_eq_true.mp h)
  · refine List.filter_eq_nil_iff.mpr (fun c hc => ?_)
    simp [kind_td_not_th c (List.all_eq_true.mp h c hc)]

/-- Helper: on a homogeneous row (all header cells or all data cells)
the header-cells-first line of the code coincides with the document-order
line. -/
theorem rowLine_homogeneous (row : List Cell)
    (h : row.all (fun c => c.kind == CellKind.th) = true ∨
      row.all (fun c => c.kind == CellKind.td) = true) :
    rowLine row = rowLineDocOrder row := by
  cases h with
  | inl h =>
      obtain ⟨f1, f2⟩ := filter_all_th row h
      simp [rowLine, rowLineDocOrder, f1, f2]
  | inr h =>
      obtain ⟨f1, f2⟩ := filter_all_td row h
      simp [rowLine, rowLineDocOrder, f1, f2]

/-- Claim C7, counterexample.  The claim asserts the table strategy
emits the cells of each row in document order.  The code concatenates
`row.find_elements("th") + row.find_elements("td")`: on a row whose
document order is a data cell `X` followed by a header cell `Y`, the
code emits `Y`, then `X`, which is not document order. -/
theorem table_row_mixed_cells_not_document_order :
    rowLine rowMixed = ("Y\tX\n") ∧
    rowLineDocOrder rowMixed = ("X\tY\n") ∧
    rowLine rowMixed ≠ rowLineDocOrder rowMixed := by
  refine ⟨rfl, rfl, fun h => ?_⟩
  rw [show rowLine rowMixed = ("Y\tX\n") from rfl,
    show rowLineDocOrder rowMixed = ("X\tY\n") from rfl] at h
  exact absurd (congrArg String.data h) (by decide)

/-- Claim C7, amended.  Per row the code emits one tab-separated line
exactly when some trimmed cell is non-empty, with all header cells
first and then all data cells, each group in document order; for a
homogeneous row (only headers or only data cells) this is document
order.  In particular a table with one all-header row followed by one
all-data row, each with some non-blank cell, yields exactly the two
document-order lines, in order. -/
theorem table_rows_amended (row hr dr : List Cell)
    (hrow : row.all (fun c => c.kind == CellKind.th) = true ∨
      row.all (fun c => c.kind == CellKind.td) = true)
    (hh : hr.all (fun c => c.kind == CellKind.th) = true)
    (hd : dr.all (fun c => c.kind == CellKind.td) = true)
    (hne1 : (hr.map (fun c => pyStrip c.text)).any (fun t => !t.isEmpty) = true)
    (hne2 : (dr.map (fun c => pyStrip c.text)).any (fun t => !t.isEmpty) = true) :
    rowLine row = rowLineDocOrder row ∧
    runTable [hr, dr] =
      ((String.intercalate ("\t") (hr.map (fun c => pyStrip c.text))) ++ ("\n")) ++
        ((String.intercalate ("\t") (dr.map (fun c => pyStrip c.text))) ++ ("\n")) := by
  refine ⟨rowLine_homogeneous row hrow, ?_⟩
  obtain ⟨f1, f2⟩ := filter_all_th hr hh
  obtain ⟨g1, g2⟩ := filter_all_td dr hd
  have lh : rowLine hr =
      (String.intercalate ("\t") (hr.map (fun c => pyStrip c.text))) ++ ("\n") := by
    simp [rowLine, f1, f2, hne1]
  have ld : rowLine dr =
      (String.intercalate ("\t") (dr.map (fun c => pyStrip c.text))) ++ ("\n") := by
    simp [rowLine, g1, g2, hne2]
  simp [runTable, strConcat, lh, ld, String.append_empty]

/-- Claim C7 witness: the amended theorem applied to a homogeneous
header row, a one-header-row-one-data-row table, and concrete cells. -/
theorem table_rows_amended_witness :
    rowLine [Cell.mk CellKind.th ("A")] = rowLineDocOrder [Cell.mk CellKind.th ("A")] ∧
    runTable [[Cell.mk CellKind.th ("H")], [Cell.mk CellKind.td ("D")]] =
      ((String.intercalate ("\t")
          ([Cell.mk CellKind.th ("H")].map (fun c => pyStrip c.text))) ++ ("\n")) ++
        ((String.intercalate ("\t")
          ([Cell.mk CellKind.td ("D")].map (fun c => pyStrip c.text))) ++ ("\n")) :=
  table_rows_amended [Cell.mk CellKind.th ("A")]
    [Cell.mk CellKind.th ("H")] [Cell.mk CellKind.td ("D")]
    (Or.inl rfl) rfl rfl rfl rfl

/-- Claim C8, confirmed.  A listing card whose name sub-element has
non-blank text and whose category and price sub-elements are absent
still yields the full multi-line record carrying that trimmed name and
empty category and price fields; the record is non-empty; and a card
whose three sub-fields are all empty (absent or blank) emits nothing. -/
theorem cafe_card_name_only_record (s : String) (c : Cafe)
    (hs : (pyStrip s).isEmpty = false)
    (h1 : cafeSub c.nameEl = "")
    (h2 : cafeSub c.categoryEl = "")
    (h3 : cafeSub c.priceEl = "") :
    cafeRecord ⟨some s, none, none⟩ =
      ("\nName: ") ++ pyStrip s ++ ("\nCategory: ") ++ ("\nPrice for two: ") ++ ("\n") ∧
    0 < (cafeRecord ⟨some s, none, none⟩).data.length ∧
    cafeRecord c = "" := by
  have hrec : cafeRecord ⟨some s, none, none⟩ =
      ("\nName: ") ++ pyStrip s ++ ("\nCategory: ") ++ ("\nPrice for two: ") ++ ("\n") := by
    simp [cafeRecord, cafeSub, hs, String.append_empty]
  refine ⟨hrec, ?_, ?_⟩
  · rw [hrec]
    have e4 : (("\n").data).length = 1 := rfl
    simp [String.data_append, List.length_append, e4]
  · have he : (("").isEmpty) = true := rfl
    simp [cafeRecord, h1, h2, h3, he]

/-- Claim C8 witness: the theorem applied to the name `" Cafe A "` and
the all-absent card. -/
theorem cafe_card_name_only_record_witness :
    cafeRecord ⟨some (" Cafe A "), none, none⟩ =
      ("\nName: ") ++ pyStrip (" Cafe A ") ++ ("\nCategory: ") ++
        ("\nPrice for two: ") ++ ("\n") ∧
    0 < (cafeRecord ⟨some (" Cafe A "), none, none⟩).data.length ∧
    cafeRecord ⟨none, none, none⟩ = "" :=
  cafe_card_name_only_record (" Cafe A ") ⟨none, none, none⟩ rfl rfl rfl rfl

/-- Claim C9, confirmed.  `query_gemini` is a total function of the
request outcome, so it never raises; a raised request or a
parse failure yields the error-marked request-failure string, a
non-200 status yields the error-marked status string, and a parsed 200
response yields the model text stripped of surrounding whitespace. -/
theorem query_gemini_total_behavior (e1 e2 t : String) (s : Nat)
    (p : Except String String) (hs : s ≠ 200) :
    query_gemini (GeminiOutcome.raised e1) = ("❌ Gemini request failed: ") ++ e1 ∧
    query_gemini (GeminiOutcome.resp s p) = ("❌ Gemini Error: ") ++ toString s ∧
    query_gemini (GeminiOutcome.resp 200 (Except.ok t)) = pyStrip t ∧
    query_gemini (GeminiOutcome.resp 200 (Except.error e2)) =
      ("❌ Gemini request failed: ") ++ e2 := by
  refine ⟨rfl, ?_, rfl, rfl⟩
  simp [query_gemini, hs]

/-- Claim C9 witness: the theorem applied to concrete failure messages,
a 404 status, and blank-padded model text. -/
theorem query_gemini_total_behavior_witness :
    query_gemini (GeminiOutcome.raised ("boom")) =
      ("❌ Gemini request failed: ") ++ ("boom") ∧
    query_gemini (GeminiOutcome.resp 404 (Except.ok ("ignored"))) =
      ("❌ Gemini Error: ") ++ toString 404 ∧
    query_gemini (GeminiOutcome.resp 200 (Except.ok (" hi "))) = pyStrip (" hi ") ∧
    query_gemini (GeminiOutcome.resp 200 (Except.error ("bad"))) =
      ("❌ Gemini request failed: ") ++ ("bad") :=
  query_gemini_total_behavior ("boom") ("bad") (" hi ") 404
    (Except.ok ("ignored")) (by decide)
